import Mathlib

/-
Verification development for memstrack (src/src/memstrack.c).

The file shallow-embeds the orchestrator in memstrack.c: the global flag
variables (lines 20-31), the getopt_long option loop of main (lines
150-198), the post-parse configuration checks (lines 200-241), and the
signal-driven shutdown path (do_exit / on_signal, lines 53-67).

The call-site aggregation engine and the report generator live in
tracing.c, which is not part of src/; the definitions for them below are
modelled from the specification (sections 4.1 and 4.2) and are marked as
such in their doc comments.
-/

set_option autoImplicit false

/-- Global configuration flags of memstrack.c lines 20-31 and 35.  The C
ints used as booleans are embedded as Bool; m_throttle is an int embedded
as Int; m_perf_base is a nullable string pointer. -/
structure Config where
  m_debug : Bool
  m_human : Bool
  m_perf : Bool
  m_ftrace : Bool
  m_json : Bool
  m_slab : Bool
  m_page : Bool
  m_show_misc : Bool
  m_throttle : Int
  m_summary : Bool
  m_sort_alloc : Bool
  m_sort_peak : Bool
  m_perf_base : Option String
deriving DecidableEq

/-- Initial values of the globals: all flags zero except
m_throttle = 100 (line 28) and m_sort_alloc = 1 (line 30). -/
def initConfig : Config :=
  { m_debug := false
    m_human := false
    m_perf := false
    m_ftrace := false
    m_json := false
    m_slab := false
    m_page := false
    m_show_misc := false
    m_throttle := 100
    m_summary := false
    m_sort_alloc := true
    m_sort_peak := false
    m_perf_base := none }

/-- Errno value EINVAL used by exit(EINVAL) at lines 206 and 215. -/
def EINVAL : Nat := 22

/-- Errno value EPERM used by exit(EPERM) at line 220. -/
def EPERM : Nat := 1

/-- One command-line argument at the invocation level, before getopt_long
maps it to a switch case.  throttle carries the atoi of its option
argument; sortBy carries its option argument verbatim; unrecognized is a
long option that does not occur in long_options (lines 82-99). -/
inductive CliArg
  | ftrace
  | perf
  | slab
  | page
  | json
  | showMisc
  | summary
  | debug
  | throttle (n : Int)
  | sortBy (s : String)
  | help
  | unrecognized (s : String)
deriving DecidableEq

/-- The value getopt_long returns into opt for one argument, i.e. which
case of the switch at lines 160-197 runs.  flag-pointer options (case 0)
are kept distinct so the switch can set the matching global; optQuestion
is the value handled by case aQ at line 191. -/
inductive GetoptResult
  | flagFtrace
  | flagPerf
  | flagSlab
  | flagPage
  | flagJson
  | flagShowMisc
  | flagSummary
  | optD
  | optH
  | optB (arg : String)
  | optT (n : Int)
  | optS (arg : String)
  | optQuestion
  | optDefault
deriving DecidableEq

/-- Documented getopt_long mapping from an argument to the switch case:
the seven flag-pointer long options return 0 with their flag identified;
debug returns the short value d; throttle returns t with optarg; sort-by
returns s with optarg; help (bound to the character also used for the
unrecognized-option return, line 97) and an unrecognized long option both
yield the same question-mark result. -/
def getoptResult : CliArg → GetoptResult
  | CliArg.ftrace => GetoptResult.flagFtrace
  | CliArg.perf => GetoptResult.flagPerf
  | CliArg.slab => GetoptResult.flagSlab
  | CliArg.page => GetoptResult.flagPage
  | CliArg.json => GetoptResult.flagJson
  | CliArg.showMisc => GetoptResult.flagShowMisc
  | CliArg.summary => GetoptResult.flagSummary
  | CliArg.debug => GetoptResult.optD
  | CliArg.throttle n => GetoptResult.optT n
  | CliArg.sortBy s => GetoptResult.optS s
  | CliArg.help => GetoptResult.optQuestion
  | CliArg.unrecognized _ => GetoptResult.optQuestion

/-- Outcome of a call to exit during option processing: the exit code,
and whether display_usage ran before exiting. -/
structure ExitInfo where
  code : Nat
  usage : Bool
deriving DecidableEq

/-- One iteration of the switch at lines 160-197.  The sort-by branch
embeds the source verbatim: the C condition is strcmp(optarg, "peak"),
which is nonzero (taken) exactly when the argument is NOT "peak", and
likewise for "alloc" (lines 183-189).  The throttle branch assigns atoi
of the argument and exits 1 when it lies outside 0..100 (lines 176-180).
The question-mark case prints usage and exits 0 (lines 191-193); the
default case prints usage and exits 1 (lines 194-196). -/
def processOpt (c : Config) (r : GetoptResult) : Except ExitInfo Config :=
  match r with
  | GetoptResult.flagFtrace => Except.ok { c with m_ftrace := true }
  | GetoptResult.flagPerf => Except.ok { c with m_perf := true }
  | GetoptResult.flagSlab => Except.ok { c with m_slab := true }
  | GetoptResult.flagPage => Except.ok { c with m_page := true }
  | GetoptResult.flagJson => Except.ok { c with m_json := true }
  | GetoptResult.flagShowMisc => Except.ok { c with m_show_misc := true }
  | GetoptResult.flagSummary => Except.ok { c with m_summary := true }
  | GetoptResult.optD => Except.ok { c with m_debug := true }
  | GetoptResult.optH => Except.ok { c with m_human := true }
  | GetoptResult.optB arg => Except.ok { c with m_perf_base := some arg }
  | GetoptResult.optT n =>
      if n < 0 ∨ 100 < n then Except.error ⟨1, false⟩
      else Except.ok { c with m_throttle := n }
  | GetoptResult.optS arg =>
      if arg ≠ "peak" then
        Except.ok { c with m_sort_peak := true, m_sort_alloc := false }
      else if arg ≠ "alloc" then
        Except.ok { c with m_sort_peak := false, m_sort_alloc := true }
      else Except.ok c
  | GetoptResult.optQuestion => Except.error ⟨0, true⟩
  | GetoptResult.optDefault => Except.error ⟨1, true⟩

/-- The option loop of main (lines 150-198): process arguments left to
right until one of the exit paths fires or the arguments are exhausted. -/
def parseArgs : Config → List CliArg → Except ExitInfo Config
  | c, [] => Except.ok c
  | c, a :: rest =>
      match processOpt c (getoptResult a) with
      | Except.error info => Except.error info
      | Except.ok c1 => parseArgs c1 rest

/-- The two event-source adapters. -/
inductive Adapter
  | perf
  | ftrace
deriving DecidableEq

/-- Result of main up to the point where an adapter would be initialized:
either the process exited (with the given code, and whether usage was
printed), or it reached adapter initialization and the event loop with
exactly one adapter selected and the final configuration.  No tracing
resource is touched on any exited outcome. -/
inductive MainOutcome
  | exited (code : Nat) (usage : Bool)
  | tracing (adapter : Adapter) (c : Config)
deriving DecidableEq

/-- The post-parse checks of main, lines 200-241, in source order:
conflicting --ftrace and --perf exits EINVAL (lines 204-207); perf
becomes the default adapter when neither was given (lines 209-211); when
both --page and --slab are missing it exits EINVAL (lines 213-216); a
non-root uid exits EPERM
(lines 218-221); otherwise the selected adapter is initialized and the
event loop entered (lines 223-240).  print_slab_usage at line 201 is a
read-only snapshot printer with no effect on control flow and is not
modelled. -/
def postParse (c : Config) (uid : Nat) : MainOutcome :=
  if c.m_perf && c.m_ftrace then MainOutcome.exited EINVAL false
  else
    let c1 := if !c.m_perf && !c.m_ftrace then { c with m_perf := true } else c
    if !c1.m_page && !c1.m_slab then MainOutcome.exited EINVAL false
    else if uid ≠ 0 then MainOutcome.exited EPERM false
    else if c1.m_perf then MainOutcome.tracing Adapter.perf c1
    else if c1.m_ftrace then MainOutcome.tracing Adapter.ftrace c1
    else MainOutcome.exited 0 false

/-- main, from the option loop through the pre-adapter checks: parse the
arguments starting from the initial globals, then run the post-parse
checks with the calling uid. -/
def runMain (args : List CliArg) (uid : Nat) : MainOutcome :=
  match parseArgs initConfig args with
  | Except.error info => MainOutcome.exited info.code info.usage
  | Except.ok c => postParse c uid

/-- One observable action of the shutdown path of memstrack.c. -/
inductive SigAction
  | ftraceClean
  | perfClean
  | finalReport
  | exitProcess (code : Nat)
  | setTerminationFlag
deriving DecidableEq

/-- Actions performed by do_exit (lines 53-62), in order: clean the
ftrace handler if m_ftrace, clean the perf handler if m_perf, generate
the final report, exit with code 0. -/
def do_exit (c : Config) : List SigAction :=
  (if c.m_ftrace then [SigAction.ftraceClean] else []) ++
  (if c.m_perf then [SigAction.perfClean] else []) ++
  [SigAction.finalReport, SigAction.exitProcess 0]

/-- Actions performed by the installed signal handler on_signal (lines
64-67): it logs and then runs do_exit directly, inside the signal
context. -/
def on_signal (c : Config) (sig : Nat) : List SigAction :=
  do_exit c

/-- Event kind of a normalized allocation event. -/
inductive EventKind
  | alloc
  | free
deriving DecidableEq

/-- Kernel memory subsystem of an event. -/
inductive Subsystem
  | page
  | slab
deriving DecidableEq

/-- Modelled from the spec: AllocEvent of section 3 (the engine source
tracing.c is not under src/).  kind, subsystem, a non-negative size in
bytes, and the call stack as a sequence of frame identifiers, innermost
first. -/
structure AllocEvent where
  kind : EventKind
  subsystem : Subsystem
  size_bytes : Nat
  call_stack : List Nat
deriving DecidableEq

/-- Modelled from the spec: the per-node counters of CallSiteNode
(section 3).  current_bytes is an Int so that the zero floor of the spec
is an explicit clamp rather than a property of the carrier type. -/
structure Counters where
  current_bytes : Int
  peak_bytes : Int
  alloc_count : Nat
  free_count : Nat
deriving DecidableEq

/-- Counters of a freshly created node: all zero. -/
def Counters.init : Counters := ⟨0, 0, 0, 0⟩

/-- Modelled from the spec: the counter update of ingest (section 4.1).
Alloc adds size_bytes to current_bytes, bumps alloc_count and raises
peak_bytes to the new current_bytes if larger; Free subtracts size_bytes
from current_bytes clamped at a floor of zero, bumps free_count, and
never touches peak_bytes. -/
def updateCounters (k : EventKind) (size : Nat) (c : Counters) : Counters :=
  match k with
  | EventKind.alloc =>
      let cur := c.current_bytes + (size : Int)
      { c with current_bytes := cur
               peak_bytes := max c.peak_bytes cur
               alloc_count := c.alloc_count + 1 }
  | EventKind.free =>
      { c with current_bytes := max 0 (c.current_bytes - (size : Int))
               free_count := c.free_count + 1 }

/-- Modelled from the spec: the forest keyed by full call stack.
Attribution is exact-terminal (section 3), so each observed stack owns
one counter record; the association list keeps first-seen order. -/
def TaskMap := List (List Nat × Counters)

/-- Counters recorded for stack s, Counters.init when s has never been
seen (a node not yet created carries all-zero accounting). -/
def lookupNode : TaskMap → List Nat → Counters
  | [], _ => Counters.init
  | (k, c) :: rest, s => if s = k then c else lookupNode rest s

/-- Modelled from the spec: ingest (section 4.1).  Walk to the node of
the full call stack, creating it if missing, and apply the counter
update for the event kind. -/
def ingest (m : TaskMap) (e : AllocEvent) : TaskMap :=
  match m with
  | [] => [(e.call_stack, updateCounters e.kind e.size_bytes Counters.init)]
  | (k, c) :: rest =>
      if e.call_stack = k then
        (k, updateCounters e.kind e.size_bytes c) :: rest
      else
        (k, c) :: ingest rest e

/-- Ingest a whole event sequence into the empty forest. -/
def ingestAll (es : List AllocEvent) : TaskMap :=
  es.foldl ingest []

/-- Report metric selection. -/
inductive Metric
  | alloc
  | peak
deriving DecidableEq

/-- Modelled from the spec: the chosen metric value of a node (section
4.2 step 1): current_bytes for the alloc metric, peak_bytes for the peak
metric. -/
def metricValue (metric : Metric) (c : Counters) : Int :=
  match metric with
  | Metric.alloc => c.current_bytes
  | Metric.peak => c.peak_bytes

/-- Modelled from the spec: the report total (section 4.2 step 2), the
sum of the chosen metric over all nodes of the forest. -/
def reportTotal (m : TaskMap) (metric : Metric) : Int :=
  (m.map fun p => metricValue metric p.2).sum

/-- Modelled from the spec: the throttle filter of section 4.2 step 3.
A node with metric value v is discarded when v / total * 100 is strictly
below the throttle percentage; cleared of the division this is
v * 100 < throttle * total. -/
def throttleKeep (throttle total v : Int) : Bool :=
  ! decide (v * 100 < throttle * total)

/-- Modelled from the spec: the flatten-and-filter step of build_report
(section 4.2 step 3); the subsequent ordering step is not needed by any
claim here and is omitted. -/
def throttledEntries (m : TaskMap) (metric : Metric) (throttle : Int) : TaskMap :=
  m.filter fun p => throttleKeep throttle (reportTotal m metric) (metricValue metric p.2)

/-- Concrete two-site event sequence used to evaluate the report filter:
two allocations of one byte at two distinct single-frame stacks. -/
def twoSiteEvents : List AllocEvent :=
  [⟨EventKind.alloc, Subsystem.page, 1, [1]⟩,
   ⟨EventKind.alloc, Subsystem.page, 1, [2]⟩]

/-- Well-formedness of the counters of one node: a nonnegative live
count bounded by the recorded peak. -/
def CountersOK (c : Counters) : Prop :=
  0 ≤ c.current_bytes ∧ c.current_bytes ≤ c.peak_bytes

theorem parseArgs_append (c : Config) (pre post : List CliArg) :
    parseArgs c (pre ++ post) =
      match parseArgs c pre with
      | Except.error info => Except.error info
      | Except.ok c1 => parseArgs c1 post := by
  induction pre generalizing c with
  | nil => rfl
  | cons a rest ih =>
      simp only [List.cons_append, parseArgs]
      cases processOpt c (getoptResult a) with
      | error info => rfl
      | ok c1 => exact ih c1

theorem lookupNode_ingest (m : TaskMap) (e : AllocEvent) (s : List Nat) :
    lookupNode (ingest m e) s =
      if s = e.call_stack then updateCounters e.kind e.size_bytes (lookupNode m s)
      else lookupNode m s := by
  induction m with
  | nil =>
      by_cases h : s = e.call_stack <;> simp [ingest, lookupNode, h]
  | cons p rest ih =>
      obtain ⟨k, c⟩ := p
      by_cases h1 : e.call_stack = k
      · subst h1
        by_cases h2 : s = e.call_stack
        · subst h2; simp [ingest, lookupNode]
        · simp [ingest, lookupNode, h2]
      · by_cases h2 : s = k
        · subst h2
          have h3 : ¬ s = e.call_stack := fun hh => h1 hh.symm
          simp [ingest, lookupNode, h1, h3]
        · simp [ingest, lookupNode, h1, h2, ih]

theorem updateCounters_ok (k : EventKind) (size : Nat) (c : Counters)
    (h : CountersOK c) : CountersOK (updateCounters k size c) := by
  obtain ⟨h1, h2⟩ := h
  cases k with
  | alloc =>
      refine ⟨?_, ?_⟩ <;> simp [updateCounters] <;> omega
  | free =>
      refine ⟨?_, ?_⟩ <;> simp [updateCounters] <;> omega

theorem foldl_ingest_ok (es : List AllocEvent) :
    ∀ (m : TaskMap), (∀ s, CountersOK (lookupNode m s)) →
      ∀ s, CountersOK (lookupNode (es.foldl ingest m) s) := by
  induction es with
  | nil => intro m h s; simpa using h s
  | cons e rest ih =>
      intro m h s
      refine ih (ingest m e) ?_ s
      intro t
      rw [lookupNode_ingest]
      split
      · exact updateCounters_ok _ _ _ (h t)
      · exact h t

theorem peak_unchanged_by_free (m : TaskMap) (e : AllocEvent)
    (he : e.kind = EventKind.free) (s : List Nat) :
    (lookupNode (ingest m e) s).peak_bytes = (lookupNode m s).peak_bytes := by
  rw [lookupNode_ingest]
  split
  · rw [he]; rfl
  · rfl

/-- C1: code bug in the sort-by branch.  Evaluating the option loop at
both documented arguments shows the selection inverted: passing "peak"
leaves m_sort_alloc set and m_sort_peak clear, while passing "alloc"
sets m_sort_peak and clears m_sort_alloc, because the strcmp results at
lines 183-189 are used as truth values without comparing them to zero. -/
theorem C1_sort_by_selection_inverted :
    (Except.map (fun c => (c.m_sort_peak, c.m_sort_alloc))
      (parseArgs initConfig [CliArg.sortBy "peak"]) =
        Except.ok (false, true)) ∧
    (Except.map (fun c => (c.m_sort_peak, c.m_sort_alloc))
      (parseArgs initConfig [CliArg.sortBy "alloc"]) =
        Except.ok (true, false)) := by
  constructor <;> rfl

/-- C2 counterexample: with the default m_throttle of 100 (line 28), the
two-site forest built from twoSiteEvents has a node with nonzero alloc
metric, yet the spec-modelled throttle filter reports no node at all, so
the default does not amount to no filtering. -/
theorem C2_default_throttle_excludes_nonzero_site :
    (lookupNode (ingestAll twoSiteEvents) [1]).current_bytes ≠ 0 ∧
    throttledEntries (ingestAll twoSiteEvents) Metric.alloc initConfig.m_throttle = [] := by
  exact ⟨by decide, rfl⟩

/-- C2 amended: the default throttle is 100, the maximal level of the
0..100 range, not a no-filtering level: under the spec-modelled filter a
node survives a throttle of 100 exactly when its metric value is at
least the entire forest total, while a throttle of 0 is the setting that
keeps every node with nonnegative metric value. -/
theorem C2_default_throttle_is_maximal_filtering :
    initConfig.m_throttle = 100 ∧
    (∀ total v : Int, throttleKeep 100 total v = true ↔ total ≤ v) ∧
    (∀ total v : Int, 0 ≤ v → throttleKeep 0 total v = true) := by
  refine ⟨rfl, ?_, ?_⟩
  · intro total v
    simp only [throttleKeep, Bool.not_eq_eq_eq_not, Bool.not_true, decide_eq_false_iff_not,
      not_lt]
    omega
  · intro total v hv
    simp only [throttleKeep, Bool.not_eq_eq_eq_not, Bool.not_true, decide_eq_false_iff_not,
      not_lt]
    omega

theorem C2_default_throttle_is_maximal_filtering_witness :
    (0 : Int) ≤ 5 ∧ throttleKeep 0 9 5 = true :=
  ⟨by decide, C2_default_throttle_is_maximal_filtering.2.2 9 5 (by decide)⟩

/-- C3 counterexample: an unrecognized long option is routed by
getopt_long to the same switch case as --help and therefore exits with
code 0 after printing usage, not with a distinct non-zero code. -/
theorem C3_unrecognized_flag_exits_zero :
    runMain [CliArg.unrecognized "bogus"] 0 = MainOutcome.exited 0 true := by
  rfl

/-- C3 amended: giving both --ftrace and --perf makes main exit with
EINVAL, which is non-zero, before any adapter is touched (an exited
outcome never reaches the tracing branch); an unrecognized flag, by
contrast, stops option processing through the usage path with exit code
0, the same path as --help. -/
theorem C3_conflicting_flags_exit_einval (c : Config) (uid : Nat)
    (hp : c.m_perf = true) (hf : c.m_ftrace = true) :
    postParse c uid = MainOutcome.exited EINVAL false ∧
    EINVAL ≠ 0 ∧
    (∀ (c1 : Config) (s : String),
      processOpt c1 (getoptResult (CliArg.unrecognized s)) = Except.error ⟨0, true⟩) := by
  refine ⟨?_, by decide, fun c1 s => rfl⟩
  simp [postParse, hp, hf]

theorem C3_conflicting_flags_exit_einval_witness :
    ({ initConfig with m_perf := true, m_ftrace := true } : Config).m_perf = true ∧
    postParse { initConfig with m_perf := true, m_ftrace := true } 0 =
      MainOutcome.exited EINVAL false :=
  ⟨rfl, (C3_conflicting_flags_exit_einval
      { initConfig with m_perf := true, m_ftrace := true } 0 rfl rfl).1⟩

/-- C4 counterexample: with the perf adapter active, the installed
SIGINT handler performs the final report itself and never sets any
termination flag, refuting the stated mechanism of a flag observed
between adapter fetches. -/
theorem C4_handler_reports_directly :
    SigAction.setTerminationFlag ∉ on_signal { initConfig with m_perf := true } 2 ∧
    SigAction.finalReport ∈ on_signal { initConfig with m_perf := true } 2 := by
  decide

/-- C4 amended: for every configuration and signal number the handler
runs do_exit immediately in signal context: the final report is
generated directly from the handler and no termination flag exists to be
observed between adapter fetches, so the report generator is not
serialized behind a quiesced event loop. -/
theorem C4_signal_shutdown_not_cooperative (c : Config) (sig : Nat) :
    on_signal c sig = do_exit c ∧
    SigAction.finalReport ∈ on_signal c sig ∧
    SigAction.setTerminationFlag ∉ on_signal c sig := by
  refine ⟨rfl, ?_, ?_⟩ <;>
    obtain ⟨f1, f2, pf, ft, f5, f6, f7, f8, f9, f10, f11, f12, f13⟩ := c <;>
    cases pf <;> cases ft <;> simp [on_signal, do_exit]

/-- C5: for every event sequence ingested from the empty forest and
every call stack, the recorded counters satisfy
0 ≤ current_bytes ≤ peak_bytes; moreover a Free event never changes the
peak_bytes of any node of any forest.  The engine is modelled from the
spec, section 4.1, as tracing.c is not part of src. -/
theorem C5_peak_current_invariant (es : List AllocEvent) (s : List Nat) :
    0 ≤ (lookupNode (ingestAll es) s).current_bytes ∧
    (lookupNode (ingestAll es) s).current_bytes ≤
      (lookupNode (ingestAll es) s).peak_bytes ∧
    ∀ (m : TaskMap) (e : AllocEvent), e.kind = EventKind.free →
      (lookupNode (ingest m e) s).peak_bytes = (lookupNode m s).peak_bytes := by
  have h := foldl_ingest_ok es [] (fun t => ⟨le_refl 0, le_refl 0⟩) s
  exact ⟨h.1, h.2, fun m e he => peak_unchanged_by_free m e he s⟩

theorem C5_peak_current_invariant_witness :
    (⟨EventKind.free, Subsystem.slab, 3, [7]⟩ : AllocEvent).kind = EventKind.free ∧
    (lookupNode (ingest [([9], ⟨4, 4, 1, 0⟩)] ⟨EventKind.free, Subsystem.slab, 3, [7]⟩)
        [9]).peak_bytes =
      (lookupNode [([9], ⟨4, 4, 1, 0⟩)] [9]).peak_bytes :=
  ⟨rfl, (C5_peak_current_invariant [] [9]).2.2 [([9], ⟨4, 4, 1, 0⟩)]
    ⟨EventKind.free, Subsystem.slab, 3, [7]⟩ rfl⟩

/-- C6: an invocation whose options parse without exiting and set
neither m_page nor m_slab makes main exit with EINVAL, a non-zero code;
every exited outcome precedes any adapter initialization. -/
theorem C6_missing_subsystem_exits_einval (args : List CliArg) (uid : Nat) (c : Config)
    (h : parseArgs initConfig args = Except.ok c)
    (hp : c.m_page = false) (hs : c.m_slab = false) :
    runMain args uid = MainOutcome.exited EINVAL false ∧ EINVAL ≠ 0 := by
  refine ⟨?_, by decide⟩
  simp only [runMain, h]
  obtain ⟨f1, f2, pf, ft, f5, sl, pg, f8, f9, f10, f11, f12, f13⟩ := c
  simp only [Config.m_page] at hp
  simp only [Config.m_slab] at hs
  subst hp; subst hs
  cases pf <;> cases ft <;> simp [postParse]

theorem C6_missing_subsystem_exits_einval_witness :
    parseArgs initConfig [] = Except.ok initConfig ∧
    runMain [] 0 = MainOutcome.exited EINVAL false ∧ EINVAL ≠ 0 :=
  ⟨rfl, C6_missing_subsystem_exits_einval [] 0 initConfig rfl rfl rfl⟩

/-- C7 counterexample: an out-of-range throttle value, a configuration
error, exits with code 1, and a non-root invocation with otherwise valid
options exits with EPERM, which is also 1: the privilege exit code is
not distinct from every configuration-error exit code. -/
theorem C7_eperm_collides_with_throttle_error :
    runMain [CliArg.throttle 101] 0 = MainOutcome.exited 1 false ∧
    runMain [CliArg.page] 5 = MainOutcome.exited EPERM false ∧
    EPERM = 1 := by
  exact ⟨rfl, rfl, rfl⟩

/-- C7 amended: a non-root uid with at least one subsystem selected and
no adapter-flag conflict makes main exit with EPERM before any adapter
initialization; EPERM (1) differs from EINVAL (22) used for conflicting
or missing flags, but coincides with the exit code 1 of the out-of-range
throttle configuration error. -/
theorem C7_nonroot_exits_eperm (c : Config) (uid : Nat)
    (hu : uid ≠ 0)
    (hps : c.m_page = true ∨ c.m_slab = true)
    (hc : ¬(c.m_perf = true ∧ c.m_ftrace = true)) :
    postParse c uid = MainOutcome.exited EPERM false ∧ EPERM ≠ EINVAL ∧ EPERM ≠ 0 := by
  refine ⟨?_, by decide, by decide⟩
  obtain ⟨f1, f2, pf, ft, f5, sl, pg, f8, f9, f10, f11, f12, f13⟩ := c
  simp only [Config.m_page, Config.m_slab] at hps
  simp only [Config.m_perf, Config.m_ftrace] at hc
  cases pf <;> cases ft <;> cases pg <;> cases sl <;> simp_all [postParse, hu]

theorem C7_nonroot_exits_eperm_witness :
    (5 : Nat) ≠ 0 ∧
    postParse { initConfig with m_page := true } 5 = MainOutcome.exited EPERM false :=
  ⟨by decide, (C7_nonroot_exits_eperm { initConfig with m_page := true } 5
      (by decide) (Or.inl rfl) (by decide)).1⟩

/-- C8: the throttle branch of the option switch exits with code 1 and
no usage text whenever the parsed integer lies outside 0..100, and
otherwise stores the value in m_throttle and lets option processing
continue. -/
theorem C8_throttle_range_check (c : Config) (n : Int) :
    ((n < 0 ∨ 100 < n) →
      processOpt c (GetoptResult.optT n) = Except.error ⟨1, false⟩) ∧
    (0 ≤ n → n ≤ 100 →
      processOpt c (GetoptResult.optT n) = Except.ok { c with m_throttle := n }) ∧
    (1 : Nat) ≠ 0 := by
  refine ⟨fun h => ?_, fun h1 h2 => ?_, by decide⟩
  · simp [processOpt, h]
  · have h3 : ¬(n < 0 ∨ 100 < n) := by omega
    simp [processOpt, h3]

theorem C8_throttle_range_check_witness :
    ((101 : Int) < 0 ∨ (100 : Int) < 101) ∧
    processOpt initConfig (GetoptResult.optT 101) = Except.error ⟨1, false⟩ ∧
    (0 : Int) ≤ 50 ∧ (50 : Int) ≤ 100 ∧
    processOpt initConfig (GetoptResult.optT 50) =
      Except.ok { initConfig with m_throttle := 50 } :=
  ⟨Or.inr (by decide),
   (C8_throttle_range_check initConfig 101).1 (Or.inr (by decide)),
   by decide, by decide,
   (C8_throttle_range_check initConfig 50).2.1 (by decide) (by decide)⟩

/-- C9: whenever the arguments preceding --help are processed without an
exit, the --help argument makes main print the usage text and exit with
code 0, regardless of what follows it; the exited outcome never reaches
adapter initialization. -/
theorem C9_help_prints_usage_and_exits_zero
    (pre rest : List CliArg) (uid : Nat) (c : Config)
    (h : parseArgs initConfig pre = Except.ok c) :
    runMain (pre ++ CliArg.help :: rest) uid = MainOutcome.exited 0 true := by
  simp only [runMain, parseArgs_append, h]
  rfl

theorem C9_help_prints_usage_and_exits_zero_witness :
    parseArgs initConfig [] = Except.ok initConfig ∧
    runMain [CliArg.help] 0 = MainOutcome.exited 0 true :=
  ⟨rfl, C9_help_prints_usage_and_exits_zero [] [] 0 initConfig rfl⟩

/-- C10: when neither --ftrace nor --perf was given and no earlier exit
fires (a subsystem is selected and the caller is root), main selects the
perf adapter by default and enters tracing with exactly that adapter:
the final configuration has m_perf set and m_ftrace still clear. -/
theorem C10_default_adapter_is_perf (c : Config) (uid : Nat)
    (hp : c.m_perf = false) (hf : c.m_ftrace = false)
    (hps : c.m_page = true ∨ c.m_slab = true) (hu : uid = 0) :
    postParse c uid = MainOutcome.tracing Adapter.perf { c with m_perf := true } ∧
    ({ c with m_perf := true } : Config).m_ftrace = false := by
  subst hu
  obtain ⟨f1, f2, pf, ft, f5, sl, pg, f8, f9, f10, f11, f12, f13⟩ := c
  simp only [Config.m_perf] at hp
  simp only [Config.m_ftrace] at hf
  simp only [Config.m_page, Config.m_slab] at hps
  subst hp; subst hf
  rcases hps with h | h <;> subst h <;> simp [postParse]

theorem C10_default_adapter_is_perf_witness :
    ({ initConfig with m_page := true } : Config).m_perf = false ∧
    postParse { initConfig with m_page := true } 0 =
      MainOutcome.tracing Adapter.perf
        { initConfig with m_page := true, m_perf := true } :=
  ⟨rfl, (C10_default_adapter_is_perf { initConfig with m_page := true } 0
      rfl rfl (Or.inl rfl) rfl).1⟩
